import Mathlib

/-!
# Verification of the segmentation_nets orchestration layer

Shallow embedding of the training loop, checkpointing, evaluator and
experiment-orchestration code of the repository, together with proofs
and refutations of the specified properties.

The embedding follows the source:
* `trainer/trainer.py` — `NetworkTrainer` (training loop, checkpoints);
* `scinets/utils/evaluator.py` — `BinaryClassificationEvaluator`,
  `NetworkTester`;
* `scinets/utils/experiment.py` — `NetworkExperiment` (run naming,
  checkpoint discovery, trainer construction).

Machine sessions are abstracted as explicit functions (the auxiliary
outputs of a step become a function of the step index, the optimizer
update a function on the parameter vector); the filesystem is an
explicit value threaded through the checkpointing operations.
-/

namespace SegNets

/-! ## Trainer state (`trainer/trainer.py`)

`NetworkTrainer.__init__` sets `num_steps = 0`, keeps `epoch_size`,
`save_step` and the checkpoint retention bound.  The trainable
parameters live in the session; we carry them as a value of an
abstract type `P`. -/

structure TrainerState (P : Type) where
  num_steps : Nat
  save_step : Option Nat
  epoch_size : Nat
  max_checkpoints : Nat
  params : P
deriving Repr, DecidableEq

/-- The on-disk state the trainer touches: the saver-managed checkpoint
snapshots (keyed by step number) and any other files in the log
directory (name, content).  `save_state` only goes through the saver,
so only `checkpoints` ever changes. -/
structure FS (P : Type) where
  checkpoints : List (Nat × P)
  side_files : List (String × String)
deriving Repr, DecidableEq

/-- Embedding of the property `NetworkTrainer.should_save`
(trainer.py:189-193): `False` when `save_step is None`, otherwise
`num_steps % save_step == 0`. -/
def should_save {P : Type} (st : TrainerState P) : Bool :=
  match st.save_step with
  | none => false
  | some s => st.num_steps % s == 0

/-- Embedding of the property `NetworkTrainer.num_epochs`
(trainer.py:185-187): `num_steps // epoch_size`. -/
def num_epochs {P : Type} (st : TrainerState P) : Nat :=
  st.num_steps / st.epoch_size

/-- Embedding of the filesystem effect of `NetworkTrainer.save_state`
(trainer.py:120-131): the saver records the current parameters keyed by
`num_steps` and keeps only the `max_checkpoints` most recent snapshots
(`tf.train.Saver(max_to_keep=max_checkpoints)`).  No other file is
written; in particular no `latest_step.json` is produced, and the
trainer state itself is untouched. -/
def save_state {P : Type} (st : TrainerState P) (fs : FS P) : FS P :=
  let cs := fs.checkpoints ++ [(st.num_steps, st.params)]
  { checkpoints := cs.drop (cs.length - st.max_checkpoints)
    side_files := fs.side_files }

/-- Embedding of one `NetworkTrainer.train_step` call
(trainer.py:80-118).  The session evaluates the optimizer update
together with the auxiliary operations; we abstract the auxiliary
outputs as a function `aux` of the step counter before the call and the
update as a function `update` on the parameters.  The counter is
incremented, and if `should_save` holds afterwards a checkpoint is
saved.  Returns (auxiliary outputs, new counter, new trainer state, new
filesystem). -/
def train_step {P α : Type} (update : P → P) (aux : Nat → α)
    (st : TrainerState P) (fs : FS P) :
    α × Nat × TrainerState P × FS P :=
  let st' : TrainerState P :=
    { st with num_steps := st.num_steps + 1, params := update st.params }
  let fs' := if should_save st' then save_state st' fs else fs
  (aux st.num_steps, st'.num_steps, st', fs')

/-- The loop body of `NetworkTrainer.train` (trainer.py:76-77): perform
`n` consecutive `train_step` calls, collecting the auxiliary output of
each step in order. -/
def train_loop {P α : Type} (update : P → P) (aux : Nat → α) :
    Nat → TrainerState P → FS P → List α × TrainerState P × FS P
  | 0, st, fs => ([], st, fs)
  | n + 1, st, fs =>
    let r := train_step update aux st fs
    let rest := train_loop update aux n r.2.2.1 r.2.2.2
    (r.1 :: rest.1, rest.2)

/-- Embedding of `NetworkTrainer.train` (trainer.py:53-78): runs
`num_steps` consecutive `train_step` calls and returns the list of
per-step auxiliary outputs together with the iteration-number array
`np.arange(self.num_steps, self.num_steps + num_steps + 1)`, which has
`num_steps + 1` entries starting at the counter value before the first
step. -/
def train {P α : Type} (update : P → P) (aux : Nat → α)
    (st : TrainerState P) (fs : FS P) (num_steps : Nat) :
    (List α × List Nat) × TrainerState P × FS P :=
  let iterations := List.range' st.num_steps (num_steps + 1)
  let r := train_loop update aux num_steps st fs
  ((r.1, iterations), r.2)

/-- A Python value reaching `json.load` in `load_state`: either a real
open file handle with its content, or a `pathlib.Path` object.  The
statement `with (self.log_dir/'latest_step.json') as f` binds `f` to
the `Path` object itself (`Path.__enter__` returns `self`), not to an
open handle. -/
inductive PyFile where
  | handle (content : String)
  | pathObject (path : String)
deriving Repr, DecidableEq

/-- Behaviour of `json.load(f)` on a `PyFile`, expecting an integer
document.  `json.load` calls `f.read()`; a `pathlib.Path` has no `read`
method, so that call raises `AttributeError`. -/
def jsonLoadNat : PyFile → Except String Nat
  | .handle content =>
    match content.toNat? with
    | some n => .ok n
    | none => .error "JSONDecodeError"
  | .pathObject _ => .error "AttributeError: object has no attribute read"

/-- Embedding of `NetworkTrainer.load_state` (trainer.py:133-145).
With an explicit `step_num`, the saver restores the snapshot recorded
for that step (failing if it does not exist) and the counter is set to
the restored step.  With `step_num=None` the code executes
`with (self.log_dir/'latest_step.json') as f: step_num = json.load(f)`,
so `json.load` receives the `Path` object and the call fails before any
restore is attempted. -/
def load_state {P : Type} (st : TrainerState P) (fs : FS P) :
    Option Nat → Except String (TrainerState P)
  | some n =>
    match fs.checkpoints.lookup n with
    | some p => .ok { st with num_steps := n, params := p }
    | none => .error "NotFoundError: checkpoint not found"
  | none =>
    match jsonLoadNat (.pathObject "latest_step.json") with
    | .ok n =>
      match fs.checkpoints.lookup n with
      | some p => .ok { st with num_steps := n, params := p }
      | none => .error "NotFoundError: checkpoint not found"
    | .error e => .error e

/-! ## Binary classification evaluator (`scinets/utils/evaluator.py`)

One example of a batch is the list of its (prediction, target) element
pairs over all non-batch axes; `prediction` and `target` are the
`tf.float32` tensors built by `ClassificationEvaluator`, carried here
as rationals.  `BinaryClassificationEvaluator` counts the nonzero
entries of elementwise products over the non-batch axes
(`tf.count_nonzero(..., axis=tf.range(1, tf.rank(...)))`) and divides
by `num_elements`. -/

/-- Embedding of `BinaryClassificationEvaluator._init_num_elements`
(evaluator.py:76-79): the product of the non-batch output dimensions,
i.e. the number of elements of one example. -/
def num_elements (elems : List (ℚ × ℚ)) : Nat :=
  elems.length

/-- Nonzero count of `prediction * target` over one example
(`_init_true_positives`, evaluator.py:81-88), before normalization. -/
def tp_count (elems : List (ℚ × ℚ)) : Nat :=
  elems.countP (fun e => decide (e.1 * e.2 ≠ 0))

/-- Nonzero count of `(prediction - 1) * (target - 1)` over one example
(`_init_true_negatives`, evaluator.py:90-97), before normalization. -/
def tn_count (elems : List (ℚ × ℚ)) : Nat :=
  elems.countP (fun e => decide ((e.1 - 1) * (e.2 - 1) ≠ 0))

/-- Nonzero count of `prediction * (target - 1)` over one example
(`_init_false_positives`, evaluator.py:99-106), before normalization. -/
def fp_count (elems : List (ℚ × ℚ)) : Nat :=
  elems.countP (fun e => decide (e.1 * (e.2 - 1) ≠ 0))

/-- Nonzero count of `(prediction - 1) * target` over one example
(`_init_false_negatives`, evaluator.py:108-115), before normalization. -/
def fn_count (elems : List (ℚ × ℚ)) : Nat :=
  elems.countP (fun e => decide ((e.1 - 1) * e.2 ≠ 0))

/-- `true_positives` of one example: the count normalized by
`num_elements`. -/
def true_positives (elems : List (ℚ × ℚ)) : ℚ :=
  (tp_count elems : ℚ) / (num_elements elems : ℚ)

/-- `true_negatives` of one example: the count normalized by
`num_elements`. -/
def true_negatives (elems : List (ℚ × ℚ)) : ℚ :=
  (tn_count elems : ℚ) / (num_elements elems : ℚ)

/-- `false_positives` of one example: the count normalized by
`num_elements`. -/
def false_positives (elems : List (ℚ × ℚ)) : ℚ :=
  (fp_count elems : ℚ) / (num_elements elems : ℚ)

/-- `false_negatives` of one example: the count normalized by
`num_elements`. -/
def false_negatives (elems : List (ℚ × ℚ)) : ℚ :=
  (fn_count elems : ℚ) / (num_elements elems : ℚ)

/-! ## Network tester (`scinets/utils/evaluator.py`, `NetworkTester`) -/

/-- The two mode placeholders fed by `NetworkTester.get_feed_dict`. -/
inductive FeedKey where
  | is_training
  | is_testing
deriving Repr, DecidableEq

/-- Embedding of `NetworkTester.get_feed_dict` (evaluator.py:149-157):
the `if/elif` chain on the split name, raising `ValueError` on any
unrecognized name. -/
def get_feed_dict (dataset : String) : Except String (List (FeedKey × Bool)) :=
  if dataset == "train" then .ok [(.is_training, true)]
  else if dataset == "val" then .ok [(.is_training, false), (.is_testing, false)]
  else if dataset == "test" then .ok [(.is_training, false), (.is_testing, true)]
  else .error "ValueError: dataset must be either train, val or test"

/-- Embedding of `NetworkTester.get_numits` (evaluator.py:141-147):
`int(np.ceil(data_len / batch_size))`, i.e. ceiling division. -/
def get_numits (data_len batch_size : Nat) : Nat :=
  (data_len + batch_size - 1) / batch_size

/-- Embedding of `NetworkTester.test_model` (evaluator.py:173-201) up
to the batch-collection stage: the feed dict is resolved first, then
the batch count, then each of the `num_its` batches is evaluated in
order with that feed dict (`run_batch` abstracts one `sess.run` of the
performance operations at a given batch index).  The per-metric
mean/std reduction of `_create_performance_dict` consumes the returned
list. -/
def test_model {β : Type} (data_type : String) (data_len batch_size : Nat)
    (run_batch : List (FeedKey × Bool) → Nat → β) : Except String (List β) :=
  match get_feed_dict data_type with
  | .error e => .error e
  | .ok fd =>
    let num_its := get_numits data_len batch_size
    .ok ((List.range num_its).map (run_batch fd))

/-! ## Run-name resolution (`scinets/utils/experiment.py`) -/

/-- Python string formatting with the `02d` format spec: decimal
digits, zero-padded on the left to width two. -/
def pad2 (i : Nat) : String :=
  if i < 10 then "0" ++ toString i else toString i

/-- The candidate run name, the requested name followed by an
underscore and the zero-padded index, probed by
`NetworkExperiment._get_name`. -/
def run_name (name : String) (i : Nat) : String :=
  name ++ "_" ++ pad2 i

/-- The `while self._name_taken(...)` loop of
`NetworkExperiment._get_name` (experiment.py:137-140), searching from
index `i` upward for the first candidate whose directory does not
exist.  The Python loop is unbounded; `fuel` bounds the search, with
`none` standing for non-termination within the bound. -/
def find_free_index (is_dir : String → Bool) (name : String) :
    Nat → Nat → Option Nat
  | 0, _ => none
  | fuel + 1, i =>
    if is_dir (run_name name i) then find_free_index is_dir name fuel (i + 1)
    else some i

/-- Embedding of `NetworkExperiment._get_name` (experiment.py:130-145):
when continuing an old run the requested name is returned as is;
otherwise the first unused `name_NN` candidate is returned.  `is_dir`
is the directory-existence probe `_name_taken`. -/
def get_name (continue_old : Bool) (name : String) (is_dir : String → Bool)
    (fuel : Nat) : Option String :=
  if continue_old then some name
  else (find_free_index is_dir name fuel 0).map (run_name name)

/-! ## Checkpoint discovery (`NetworkExperiment.get_all_checkpoint_its`) -/

/-- Python `str.split(sep)` for a one-character separator: splits at
every occurrence of the separator, keeping empty parts; splitting the
empty string yields one empty part. -/
def splitOnChar (sep : Char) : List Char → List (List Char)
  | [] => [[]]
  | c :: rest =>
    let r := splitOnChar sep rest
    if c = sep then [] :: r
    else
      match r with
      | [] => [[c]]
      | p :: ps => (c :: p) :: ps

/-- Accumulator pass of decimal-numeral evaluation. -/
def digitsToNat : List Char → Nat → Nat
  | [], acc => acc
  | c :: rest, acc => digitsToNat rest (acc * 10 + (c.toNat - '0'.toNat))

/-- Python `int(s)` restricted to the non-negative case: the decimal
value when `s` is a nonempty digit string, `none` (a raised
`ValueError`) otherwise. -/
def pyIntNat (cs : List Char) : Option Nat :=
  if cs ≠ [] ∧ cs.all (fun c => c.isDigit) then some (digitsToNat cs 0)
  else none

/-- Whether a directory entry matches the glob pattern
`checkpoint-*.index` used at experiment.py:265 (`*` matches any
sequence of characters of the file name, including the empty one). -/
def glob_checkpoint_index (name : String) : Bool :=
  "checkpoint-".data.isPrefixOf name.data
    && ".index".data.isSuffixOf name.data
    && decide (17 ≤ name.data.length)

/-- Embedding of the inner `checkpoint_to_it` of
`NetworkExperiment.get_all_checkpoint_its` (experiment.py:267-270):
`int(str(checkpoint).split("-")[1].split(".")[0])` applied to the full
path string, `none` when the indexing or `int()` raises. -/
def checkpoint_to_it (path : String) : Option Nat := do
  let part ← (splitOnChar '-' path.data).get? 1
  let numStr ← (splitOnChar '.' part).get? 0
  pyIntNat numStr

/-- Embedding of `NetworkExperiment.get_all_checkpoint_its`
(experiment.py:263-272).  `entries` is the sequence of file names the
directory enumeration underlying `Path.glob` yields, in enumeration
order (that order is filesystem-dependent and unspecified); matching
entries are parsed in that order.  No sorting is applied. -/
def get_all_checkpoint_its (dir : String) (entries : List String) :
    Option (List Nat) :=
  ((entries.filter glob_checkpoint_index).map (fun e => dir ++ "/" ++ e)).mapM
    checkpoint_to_it

/-! ## Trainer construction (`NetworkExperiment._get_trainer`) -/

/-- The parameter names accepted by `NetworkTrainer.__init__`
(trainer.py:12-14); there is no `**kwargs` catch-all. -/
def networkTrainerInitParams : List String :=
  ["network", "epoch_size", "log_dir", "train_op", "train_op_kwargs",
   "max_checkpoints", "save_step", "verbose"]

/-- The keyword-argument names passed by
`NetworkExperiment._get_trainer` (experiment.py:164-171): the literal
keywords `steps_per_epoch`, `log_dir` and `verbose`, followed by the
keys of the unpacked `trainer_params` dictionary. -/
def get_trainer_kwargs (trainer_params_keys : List String) : List String :=
  ["steps_per_epoch", "log_dir", "verbose"] ++ trainer_params_keys

/-- The keyword arguments of a call that match no parameter name of the
callee; Python raises `TypeError: got an unexpected keyword argument`
whenever this list is nonempty. -/
def unexpected_kwargs (param_names kwarg_names : List String) : List String :=
  kwarg_names.filter (fun k => !(param_names.contains k))

/-- Outcome of the `NetworkTrainer(...)` call made by
`NetworkExperiment._get_trainer`, as far as Python keyword binding is
concerned: the call raises whenever some keyword matches no parameter
of `NetworkTrainer.__init__`. -/
def get_trainer (trainer_params_keys : List String) : Except String Unit :=
  if unexpected_kwargs networkTrainerInitParams
      (get_trainer_kwargs trainer_params_keys) = [] then .ok ()
  else .error "TypeError: __init__ got an unexpected keyword argument"

/-! ## The feed dict of `train_step` (trainer.py:107-111) -/

/-- Embedding of the feed-dict merge in `train_step`: the dict literal
whose first entry binds `self.network.is_training` to `True` and which
then unpacks the caller-supplied `feed_dict`.  A Python dict literal is
built left to right and a later entry wins on key collision, so an
entry of the caller-supplied `feed_dict` for the `is_training`
placeholder overrides the `True` written first.  Feed dicts are
carried as partial maps from placeholder keys to values. -/
def train_step_feed {K V : Type} [DecidableEq K] (kT : K) (vTrue : V)
    (feed : K → Option V) : K → Option V :=
  fun k =>
    match feed k with
    | some v => some v
    | none => if k = kT then some vTrue else none

/-! ## Theorems -/

/-- The step counter after `k` iterations of the training loop is the
starting counter plus `k`: `train_step` is the only loop operation that
touches `num_steps`, and it adds exactly one. -/
lemma train_loop_num_steps {P α : Type} (update : P → P) (aux : Nat → α) :
    ∀ (k : Nat) (st : TrainerState P) (fs : FS P),
      ((train_loop update aux k st fs).2.1).num_steps = st.num_steps + k
  | 0, _, _ => rfl
  | k + 1, st, fs => by
    simp only [train_loop, train_step]
    rw [train_loop_num_steps update aux k]
    dsimp only
    omega

/-- C1: evaluation of `train` at the failing input.  For
`num_steps = 2` with counter `0` before the call, the code produces the
two per-step auxiliary outputs in order (here the step index each was
run at), but the iteration array `np.arange(0, 0 + 2 + 1)` has three
entries `[0, 1, 2]`, not the two entries the specification asks for:
the claimed index-sequence length `num_steps` is off by one from the
code. -/
theorem c1_train_iterations_off_by_one :
    (train (P := Unit) id (fun i => i) ⟨0, none, 1, 10, ()⟩ ⟨[], []⟩ 2).1.1
      = [0, 1] ∧
    (train (P := Unit) id (fun i => i) ⟨0, none, 1, 10, ()⟩ ⟨[], []⟩ 2).1.2
      = [0, 1, 2] ∧
    ((train (P := Unit) id (fun i => i) ⟨0, none, 1, 10, ()⟩ ⟨[], []⟩ 2).1.2).length
      = 3 := by
  decide

/-- C2: the save/argumentless-load round trip can never succeed.
Whatever checkpoint `save_state` has just written, `load_state` with no
step argument fails: `save_state` records the snapshot through the
saver and writes no `latest_step.json` side file, and the
`with (self.log_dir/'latest_step.json') as f` statement hands the
`Path` object itself to `json.load`, which raises `AttributeError`
before any restore is attempted. -/
theorem c2_argumentless_load_always_fails {P : Type}
    (st st₂ : TrainerState P) (fs : FS P) :
    load_state st₂ (save_state st fs) none
      = .error "AttributeError: object has no attribute read" ∧
    (save_state st fs).side_files = fs.side_files :=
  ⟨rfl, rfl⟩

/-- C3 counterexample: at the trainer state with `num_steps = 0` and
`save_step = 100`, `should_save` evaluates to `true`, refuting the
claim that it is false whenever `num_steps = 0`. -/
theorem c3_counterexample :
    should_save (P := Unit) ⟨0, some 100, 1, 10, ()⟩ = true ∧
    (⟨0, some 100, 1, 10, ()⟩ : TrainerState Unit).num_steps = 0 := by
  decide

/-- C3 (amended): `should_save` is true exactly when `save_step` is
enabled and divides `num_steps` — including `num_steps = 0` — and is
always false when `save_step` is `None`. -/
theorem c3_should_save_iff {P : Type} (st : TrainerState P) :
    should_save st = true ↔ ∃ s, st.save_step = some s ∧ s ∣ st.num_steps := by
  cases hs : st.save_step with
  | none => simp [should_save, hs]
  | some s =>
    simp only [should_save, hs, beq_iff_eq, Option.some.injEq]
    constructor
    · intro h
      exact ⟨s, rfl, Nat.dvd_of_mod_eq_zero h⟩
    · rintro ⟨s₂, rfl, hdvd⟩
      obtain ⟨c, hc⟩ := hdvd
      rw [hc]
      exact Nat.mul_mod_right s c

/-- C4 counterexample: a caller-supplied feed dict that itself binds
the `is_training` placeholder to `False` makes the merged feed dict
carry `False` for it, refuting the claim that no caller input can make
the update run with `is_training = False`. -/
theorem c4_counterexample :
    train_step_feed "is_training" true
      (fun k => if k = "is_training" then some false else none) "is_training"
      = some false ∧
    ¬ (train_step_feed "is_training" true
      (fun k => if k = "is_training" then some false else none) "is_training"
      = some true) := by
  decide

/-- C4 (amended): the merged feed dict of `train_step` binds the
`is_training` placeholder to `True` whenever the caller's feed dict
does not bind it, and to the caller's value when it does — the
caller-supplied entry takes precedence over the mandatory `True`. -/
theorem c4_is_training_default {K V : Type} [DecidableEq K] (kT : K)
    (vTrue : V) (feed : K → Option V) :
    (feed kT = none → train_step_feed kT vTrue feed kT = some vTrue) ∧
    (∀ v, feed kT = some v → train_step_feed kT vTrue feed kT = some v) := by
  constructor
  · intro h
    simp [train_step_feed, h]
  · intro v h
    simp [train_step_feed, h]

/-- C4 witness: with a caller feed dict binding nothing, the merged
feed dict carries `True` for `is_training`. -/
theorem c4_witness :
    train_step_feed "is_training" true (fun _ => none) "is_training"
      = some true :=
  (c4_is_training_default "is_training" true (fun _ => none)).1 rfl

/-- Each element whose prediction and target are both in 0.0 or 1.0
falls in exactly one of the four confusion categories, so the four
indicator contributions sum to one. -/
lemma confusion_elem (p t : ℚ) (hp : p = 0 ∨ p = 1) (ht : t = 0 ∨ t = 1) :
    ((if decide (p * t ≠ 0) = true then 1 else 0) : ℕ)
      + (if decide ((p - 1) * (t - 1) ≠ 0) = true then 1 else 0)
      + (if decide (p * (t - 1) ≠ 0) = true then 1 else 0)
      + (if decide ((p - 1) * t ≠ 0) = true then 1 else 0) = 1 := by
  rcases hp with rfl | rfl <;> rcases ht with rfl | rfl <;> norm_num

/-- For an example whose entries are all 0.0 or 1.0, the four raw
confusion counts partition the elements. -/
lemma counts_partition (elems : List (ℚ × ℚ))
    (h01 : ∀ e ∈ elems, (e.1 = 0 ∨ e.1 = 1) ∧ (e.2 = 0 ∨ e.2 = 1)) :
    tp_count elems + tn_count elems + fp_count elems + fn_count elems
      = elems.length := by
  induction elems with
  | nil => rfl
  | cons e rest ih =>
    have he := h01 e (List.mem_cons_self e rest)
    have hrest := ih (fun x hx => h01 x (List.mem_cons_of_mem e hx))
    have helem := confusion_elem e.1 e.2 he.1 he.2
    simp only [tp_count, tn_count, fp_count, fn_count, List.countP_cons,
      List.length_cons]
    simp only [tp_count, tn_count, fp_count, fn_count] at hrest
    omega

/-- C5: for every example whose prediction and target entries are all
0 or 1 and which has at least one element, the four normalized
confusion counts of `BinaryClassificationEvaluator` sum exactly to
one. -/
theorem c5_confusion_counts_sum_to_one (elems : List (ℚ × ℚ))
    (h01 : ∀ e ∈ elems, (e.1 = 0 ∨ e.1 = 1) ∧ (e.2 = 0 ∨ e.2 = 1))
    (hne : elems ≠ []) :
    true_positives elems + true_negatives elems + false_positives elems
      + false_negatives elems = 1 := by
  have hn : (num_elements elems : ℚ) ≠ 0 := by
    simp only [num_elements, ne_eq, Nat.cast_eq_zero, List.length_eq_zero]
    exact hne
  have hsum : ((tp_count elems : ℚ) + tn_count elems + fp_count elems
      + fn_count elems) = (num_elements elems : ℚ) := by
    have := counts_partition elems h01
    unfold num_elements
    exact_mod_cast this
  unfold true_positives true_negatives false_positives false_negatives
  rw [div_add_div_same, div_add_div_same, div_add_div_same, hsum,
    div_self hn]

/-- C5 witness: the four-element example covering every confusion
category sums to one. -/
theorem c5_witness :
    true_positives [(1, 1), (0, 0), (1, 0), (0, 1)]
      + true_negatives [(1, 1), (0, 0), (1, 0), (0, 1)]
      + false_positives [(1, 1), (0, 0), (1, 0), (0, 1)]
      + false_negatives [(1, 1), (0, 0), (1, 0), (0, 1)] = 1 :=
  c5_confusion_counts_sum_to_one [(1, 1), (0, 0), (1, 0), (0, 1)]
    (by decide) (by decide)

/-- The probing loop of `_get_name` returns the least index whose
candidate directory does not exist, provided the fuel bound covers
it. -/
lemma find_free_index_spec (is_dir : String → Bool) (name : String) :
    ∀ (fuel i k : Nat), i ≤ k → k < i + fuel →
      (∀ j, i ≤ j → j < k → is_dir (run_name name j) = true) →
      is_dir (run_name name k) = false →
      find_free_index is_dir name fuel i = some k
  | 0, _, _, _, hlt, _, _ => absurd hlt (by omega)
  | fuel + 1, i, k, hik, hlt, htaken, hfree => by
    rcases Nat.eq_or_lt_of_le hik with rfl | hlt₂
    · simp [find_free_index, hfree]
    · rw [find_free_index, if_pos (htaken i le_rfl hlt₂)]
      exact find_free_index_spec is_dir name fuel (i + 1) k hlt₂ (by omega)
        (fun j hj hjk => htaken j (by omega) hjk) hfree

/-- C6: when not continuing an old run, `_get_name` resolves the
requested name to the candidate with the smallest zero-padded index
whose directory does not exist (indices probed from 00 upward); when
continuing an old run, the requested name is returned verbatim — for
every probe function, without consulting it. -/
theorem c6_run_name_resolution (name : String) (is_dir : String → Bool)
    (fuel k : Nat)
    (hfree : is_dir (run_name name k) = false)
    (hleast : ∀ j, j < k → is_dir (run_name name j) = true)
    (hfuel : k < fuel) :
    get_name false name is_dir fuel = some (run_name name k) ∧
    (∀ (name₂ : String) (is_dir₂ : String → Bool) (fuel₂ : Nat),
      get_name true name₂ is_dir₂ fuel₂ = some name₂) := by
  constructor
  · unfold get_name
    rw [if_neg (by simp)]
    rw [find_free_index_spec is_dir name fuel 0 k (Nat.zero_le k) (by omega)
      (fun j _ hj => hleast j hj) hfree]
    rfl
  · intro name₂ is_dir₂ fuel₂
    rfl

/-- C6 witness: with only the directory `expA_00` existing, a fresh run
named `expA` resolves to `expA_01`, and a continuing run keeps the name
`expA`. -/
theorem c6_witness :
    get_name false "expA" (fun s => s == "expA_00") 10 = some "expA_01" ∧
    get_name true "expA" (fun s => s == "expA_00") 10 = some "expA" := by
  have h := c6_run_name_resolution "expA" (fun s => s == "expA_00") 10 1
    (by decide) (by decide) (by decide)
  exact ⟨h.1.trans (by decide), h.2 "expA" (fun s => s == "expA_00") 10⟩

/-- C7: `get_feed_dict` succeeds exactly on the three recognized split
names, and for an unrecognized name `test_model` returns the
`ValueError` before evaluating any batch — the outcome is the same for
every batch-evaluation function. -/
theorem c7_split_validation {β : Type} (data_type : String) :
    ((∃ fd, get_feed_dict data_type = .ok fd) ↔
      data_type = "train" ∨ data_type = "val" ∨ data_type = "test") ∧
    (data_type ≠ "train" → data_type ≠ "val" → data_type ≠ "test" →
      ∀ (data_len batch_size : Nat)
        (run_batch run_batch₂ : List (FeedKey × Bool) → Nat → β),
        test_model data_type data_len batch_size run_batch
          = .error "ValueError: dataset must be either train, val or test" ∧
        test_model data_type data_len batch_size run_batch
          = test_model data_type data_len batch_size run_batch₂) := by
  constructor
  · unfold get_feed_dict
    by_cases h1 : data_type = "train" <;> by_cases h2 : data_type = "val" <;>
      by_cases h3 : data_type = "test" <;> simp [h1, h2, h3]
  · intro h1 h2 h3 data_len batch_size rb rb₂
    unfold test_model get_feed_dict
    simp [h1, h2, h3]

/-- C7 witness: the unrecognized split name `validation` makes
`test_model` fail with the `ValueError` for a concrete batch
evaluator. -/
theorem c7_witness :
    test_model (β := Nat) "validation" 10 3 (fun _ _ => 0)
      = .error "ValueError: dataset must be either train, val or test" :=
  ((c7_split_validation (β := Nat) "validation").2 (by decide) (by decide)
    (by decide) 10 3 (fun _ _ => 0) (fun _ _ => 1)).1

/-- C8 counterexample: with the directory enumeration yielding the
checkpoint files for steps 200 and 100 in that order,
`get_all_checkpoint_its` returns `[200, 100]`, which is not in
ascending order — the code applies no sorting to the parsed steps. -/
theorem c8_counterexample :
    get_all_checkpoint_its "logs/run/checkpoints"
      ["checkpoint-200.index", "checkpoint-100.index"] = some [200, 100] ∧
    ¬ List.Sorted (· ≤ ·) [200, 100] := by
  constructor
  · decide
  · intro h
    have := (List.sorted_cons.mp h).1 100 (by simp)
    omega

/-- C8 (amended): `get_all_checkpoint_its` returns the step numbers
parsed from the checkpoint index files in the order the directory
enumeration yields them, with no sorting applied: parsing inverts the
file naming, so enumerating the files of any list of steps returns
exactly that list of steps in enumeration order. -/
theorem c8_enumeration_order (dir : String) (steps : List Nat)
    (hparse : ∀ n ∈ steps,
      checkpoint_to_it (dir ++ "/" ++ ("checkpoint-" ++ toString n ++ ".index"))
        = some n)
    (hglob : ∀ n ∈ steps,
      glob_checkpoint_index ("checkpoint-" ++ toString n ++ ".index") = true) :
    get_all_checkpoint_its dir
      (steps.map (fun n => "checkpoint-" ++ toString n ++ ".index"))
      = some steps := by
  induction steps with
  | nil => rfl
  | cons n rest ih =>
    have hp := hparse n (List.mem_cons_self n rest)
    have hg := hglob n (List.mem_cons_self n rest)
    have hrest := ih (fun m hm => hparse m (List.mem_cons_of_mem n hm))
      (fun m hm => hglob m (List.mem_cons_of_mem n hm))
    simp only [get_all_checkpoint_its, List.map_cons, List.filter_cons, hg,
      if_true, List.mapM_cons] at *
    rw [hp, hrest]
    rfl

/-- C8 witness: enumerating the checkpoint files for steps 200, 100
and 5 in that order returns exactly those steps in that (unsorted)
order. -/
theorem c8_witness :
    get_all_checkpoint_its "logs/run/checkpoints"
      (([200, 100, 5] : List Nat).map
        (fun n => "checkpoint-" ++ toString n ++ ".index"))
      = some [200, 100, 5] :=
  c8_enumeration_order "logs/run/checkpoints" [200, 100, 5]
    (by decide) (by decide)

/-- C9: a successful restore at step `R` sets the counter to `R`, and
`k` subsequent `train_step` calls leave it at `R + k`: `train_step` is
the only operation incrementing the counter (by exactly one per call)
and the checkpoint saves triggered along the way touch only the
filesystem. -/
theorem c9_num_steps_invariant {P α : Type} (update : P → P) (aux : Nat → α)
    (st st₁ : TrainerState P) (fs fs₁ : FS P) (R k : Nat)
    (h : load_state st fs (some R) = .ok st₁) :
    st₁.num_steps = R ∧
    ((train_loop update aux k st₁ fs₁).2.1).num_steps = R + k := by
  have hR : st₁.num_steps = R := by
    cases hl : fs.checkpoints.lookup R with
    | none => simp [load_state, hl] at h
    | some p =>
      simp only [load_state, hl] at h
      cases h
      rfl
  exact ⟨hR, by rw [train_loop_num_steps update aux k, hR]⟩

/-- C9 witness: restoring the checkpoint recorded at step 5 and then
performing three training steps leaves the counter at 8. -/
theorem c9_witness :
    (⟨5, none, 1, 10, ()⟩ : TrainerState Unit).num_steps = 5 ∧
    ((train_loop (P := Unit) id (fun i => i) 3 ⟨5, none, 1, 10, ()⟩
      ⟨[], []⟩).2.1).num_steps = 5 + 3 :=
  c9_num_steps_invariant id (fun i => i) ⟨0, none, 1, 10, ()⟩
    ⟨5, none, 1, 10, ()⟩ ⟨[(5, ())], []⟩ ⟨[], []⟩ 5 3 rfl

/-- C10: for every `trainer_params` configuration, the
`NetworkTrainer(...)` call made by `NetworkExperiment._get_trainer`
passes the keyword `steps_per_epoch`, which matches no parameter of
`NetworkTrainer.__init__` (the corresponding parameter is named
`epoch_size`), so the call always raises the unexpected-keyword
`TypeError` and no trainer is ever constructed. -/
theorem c10_trainer_kwarg_mismatch (trainer_params_keys : List String) :
    get_trainer trainer_params_keys
      = .error "TypeError: __init__ got an unexpected keyword argument" ∧
    "steps_per_epoch" ∈ unexpected_kwargs networkTrainerInitParams
      (get_trainer_kwargs trainer_params_keys) := by
  have hmem : "steps_per_epoch" ∈ unexpected_kwargs networkTrainerInitParams
      (get_trainer_kwargs trainer_params_keys) := by
    unfold unexpected_kwargs get_trainer_kwargs
    rw [List.cons_append, List.filter_cons_of_pos (by decide)]
    exact List.mem_cons_self _ _
  refine ⟨?_, hmem⟩
  unfold get_trainer
  rw [if_neg]
  intro hempty
  rw [hempty] at hmem
  exact List.not_mem_nil _ hmem

end SegNets
